import Mathlib

/-
Verification of the netp-dsgrid registry core against its design spec.

Shallow embedding of:
  * dsgrid/cloud/s3_storage_interface.py  (advisory lock manager)
  * dsgrid/registry/project_update_checker.py  (update cascade policy)
  * dsgrid/registry/registry_manager.py  (registry lifecycle operations)

Python dictionaries holding registry state are modelled as association
lists; filesystem contents are modelled as explicit state records.
Exceptions are modelled with Except; an error result means the source
raised before performing any further writes.
-/

set_option autoImplicit false

namespace Dsgrid

/-! ## Lock manager (s3_storage_interface.py) -/

/-- Contents of a lock file, as written by make_lock:
the JSON object with keys username, uuid, timestamp. -/
structure LockContents where
  username : String
  uuid : String
  timestamp : String
  deriving DecidableEq, Repr

/-- The identity of an S3StorageInterface instance: self._uuid and self._user. -/
structure LockClient where
  uuid : String
  user : String
  deriving DecidableEq, Repr

/-- Errors raised by the lock manager.
registryLock carries the username, timestamp and uuid reported in the
DSGRegistryLockError message; makeLock is DSGMakeLockError;
assertionFailed is a Python AssertionError. -/
inductive LockError where
  | registryLock (username timestamp uuid : String)
  | makeLock
  | assertionFailed
  deriving DecidableEq, Repr

/-- A lock file path, reduced to the two pieces the source inspects:
Path(path).suffix and the parent directory after the prefix stripping
performed in check_valid_lockfile (relative_to on the registry base
prefix and on a leading slash). -/
structure LockPath where
  suffix : String
  relParent : String
  deriving DecidableEq, Repr

/-- S3StorageInterface.check_valid_lockfile.
Faithful to the source: in the final else branch the source constructs
DSGMakeLockError(...) but does not raise it, so the function returns
True for any parent directory other than configs/.locks and data/.locks. -/
def check_valid_lockfile (p : LockPath) : Except LockError Bool :=
  if p.suffix ≠ ".lock" then
    .error .makeLock
  else if p.relParent = "configs/.locks" then
    .ok true
  else if p.relParent = "data/.locks" then
    .error .assertionFailed
  else
    .ok true

/-- S3StorageInterface.check_lock.  The lock file state at the path is
an Option LockContents (none when the file does not exist). -/
def check_lock (cl : LockClient) (p : LockPath) (st : Option LockContents) :
    Except LockError Unit :=
  match check_valid_lockfile p with
  | .error e => .error e
  | .ok _ =>
    match st with
    | none => .ok ()
    | some lc =>
      if ¬ cl.uuid = lc.uuid ∨ ¬ cl.user = lc.username then
        .error (.registryLock lc.username lc.timestamp lc.uuid)
      else
        .ok ()

/-- S3StorageInterface.remove_lock.  Returns the resulting lock file
state (none after unlink).  Note the source guards the raise with
`not self._uuid == ... AND not self._user == ...`: it raises only when
both the uuid and the user differ from the recorded pair. -/
def remove_lock (cl : LockClient) (st : Option LockContents) (force : Bool) :
    Except LockError (Option LockContents) :=
  match st with
  | none => .ok none
  | some lc =>
    if ¬ force ∧ (¬ cl.uuid = lc.uuid ∧ ¬ cl.user = lc.username) then
      .error (.registryLock lc.username lc.timestamp lc.uuid)
    else
      .ok none

/-- Entry of the make_lock context manager (the part that runs up to
yield).  The body is wrapped in try/finally, so when check_lock raises,
the generator finally clause still calls remove_lock(path); an
exception raised by that remove_lock replaces the in-flight one.  On
error the result carries the lock file state left behind. -/
def make_lock_enter (cl : LockClient) (p : LockPath) (ts : String)
    (st : Option LockContents) :
    Except (LockError × Option LockContents) (Option LockContents) :=
  match check_lock cl p st with
  | .error e =>
    match remove_lock cl st false with
    | .error e2 => .error (e2, st)
    | .ok st2 => .error (e, st2)
  | .ok _ => .ok (some ⟨cl.user, cl.uuid, ts⟩)

/-! ## Registry common definitions (registry/common.py, semver) -/

/-- Statuses for a dataset within a project (DatasetRegistryStatus). -/
inductive DatasetStatus where
  | unregistered
  | registered
  deriving DecidableEq, Repr

/-- Statuses for a project within the registry (ProjectRegistryStatus). -/
inductive ProjectStatus where
  | initialRegistration
  | inProgress
  | complete
  | published
  | deprecated
  deriving DecidableEq, Repr

/-- VersionUpdateType. -/
inductive UpdateType where
  | major
  | minor
  | patch
  deriving DecidableEq, Repr

/-- semver.VersionInfo, as a (major, minor, patch) triple. -/
structure SemVer where
  major : Nat
  minor : Nat
  patch : Nat
  deriving DecidableEq, Repr

/-- VersionInfo.bump_major: increments major, resets minor and patch. -/
def SemVer.bump_major (v : SemVer) : SemVer := ⟨v.major + 1, 0, 0⟩

/-- VersionInfo.bump_minor: increments minor, resets patch. -/
def SemVer.bump_minor (v : SemVer) : SemVer := ⟨v.major, v.minor + 1, 0⟩

/-- VersionInfo.bump_patch: increments patch. -/
def SemVer.bump_patch (v : SemVer) : SemVer := ⟨v.major, v.minor, v.patch + 1⟩

/-- ConfigRegistrationModel: one registration history record.
The date is kept abstract as a string. -/
structure RegistrationRecord where
  version : SemVer
  submitter : String
  date : String
  log_message : String
  deriving DecidableEq, Repr

/-- ProjectDatasetRegistryModel: one dataset slot of a project header. -/
structure DatasetSlot where
  dataset_id : String
  status : DatasetStatus
  deriving DecidableEq, Repr

/-! ## Project update checker (registry/project_update_checker.py)

The base class ConfigUpdateCheckerBase is not part of the sources; it
supplies the field diff self._changed_fields, which is therefore taken
here as an input of handle_postconditions. -/

/-- ProjectUpdateChecker._REQUIRES_DATASET_UNREGISTRATION. -/
def REQUIRES_DATASET_UNREGISTRATION : List String :=
  ["dimensions", "dimension_mappings"]

/-- The new model mutated by handle_postconditions: project id, status
and dataset slots (the fields the method touches). -/
structure ProjectModel where
  project_id : String
  status : ProjectStatus
  datasets : List DatasetSlot
  deriving DecidableEq, Repr

/-- ProjectUpdateChecker.handle_postconditions, acting on the new
model.  The call to remove_project_dimension_associations only
invalidates an external cache and mutates no model field, so it is not
part of the returned state. -/
def handle_postconditions (changed_fields : List String) (m : ProjectModel) :
    ProjectModel :=
  let changes := REQUIRES_DATASET_UNREGISTRATION.filter (fun f => f ∈ changed_fields)
  if changes ≠ [] then
    let m1 : ProjectModel :=
      { m with
        datasets := m.datasets.map (fun d =>
          if d.status = DatasetStatus.registered then
            { d with status := DatasetStatus.unregistered }
          else d) }
    if m1.status = ProjectStatus.complete then
      { m1 with status := ProjectStatus.inProgress }
    else m1
  else m

/-! ## Registry manager: project update (registry/registry_manager.py) -/

/-- ProjectRegistryModel: the serialized project registry header. -/
structure ProjectHeader where
  project_id : String
  version : SemVer
  status : ProjectStatus
  description : String
  dataset_registries : List DatasetSlot
  registration_history : List RegistrationRecord
  deriving DecidableEq, Repr

/-- Registry errors raised by RegistryManager operations. -/
inductive RegistryError where
  | valueError (msg : String)
  | assertionFailed
  deriving DecidableEq, Repr

/-- RegistryManager._update_config specialized to a project header
(the claim's call path, reached from update_project).  The source
copies the description out of the new config file, bumps the stored
version according to update_type, appends one ConfigRegistrationModel
carrying the bumped version, and re-serializes the header.  It never
touches dataset_registries or status, and never invokes
ProjectUpdateChecker. -/
def update_config (h : ProjectHeader) (newDescription : String)
    (update_type : UpdateType) (submitter date log_message : String) :
    ProjectHeader :=
  let h1 := { h with description := newDescription }
  let newVersion :=
    match update_type with
    | .major => h1.version.bump_major
    | .minor => h1.version.bump_minor
    | .patch => h1.version.bump_patch
  let h2 := { h1 with version := newVersion }
  let registration : RegistrationRecord :=
    ⟨h2.version, submitter, date, log_message⟩
  { h2 with registration_history := h2.registration_history ++ [registration] }

/-- Association-list lookup for headers keyed by id. -/
def findHeader (ps : List (String × ProjectHeader)) (pid : String) :
    Option ProjectHeader :=
  match ps with
  | [] => none
  | (k, h) :: rest => if k = pid then some h else findHeader rest pid

/-- Replace the header stored under pid. -/
def storeHeader (ps : List (String × ProjectHeader)) (pid : String)
    (h : ProjectHeader) : List (String × ProjectHeader) :=
  ps.map (fun kv => if kv.1 = pid then (kv.1, h) else kv)

/-- RegistryManager.update_project.  projects is the persisted map
from project id to registry header (self._project_ids is its key set);
the new config file contributes the project id and description. -/
def update_project (projects : List (String × ProjectHeader)) (pid : String)
    (newDescription : String) (update_type : UpdateType)
    (submitter date log_message : String) :
    Except RegistryError (List (String × ProjectHeader)) :=
  match findHeader projects pid with
  | none => .error (.valueError "is not already stored")
  | some h =>
    .ok (storeHeader projects pid
      (update_config h newDescription update_type submitter date log_message))

/-! ## Dimension registrar (RegistryManager._register_dimension_config)

The dimension registry for one dimension type is the listing of
data_type_dir: each DimEntry is one subdirectory, holding one version
subdirectory per registered version (the registry.toml file that also
lives there is excluded by the source's listing filter) together with
the log_message stored in that version's dimension.toml. -/

/-- Characters of a string before the first occurrence of a double
underscore (the double-underscore split performed in the source), used to match directory
names against dimension ids. -/
def splitPrefixChars : List Char → List Char
  | [] => []
  | '_' :: '_' :: _ => []
  | c :: rest => c :: splitPrefixChars rest

/-- Directory name prefix before the first double underscore. -/
def fnameOf (s : String) : String :=
  String.mk (splitPrefixChars s.data)

/-- Python string less-than: lexicographic comparison by code point. -/
def charListLt : List Char → List Char → Bool
  | [], [] => false
  | [], _ :: _ => true
  | _ :: _, [] => false
  | a :: as, b :: bs =>
    if a < b then true else if b < a then false else charListLt as bs

/-- Python str comparison, as used by the builtin max. -/
def pyStrLt (a b : String) : Bool :=
  charListLt a.data b.data

/-- Python max over a list of strings; none models the ValueError that
max raises on an empty sequence. -/
def pyMax (l : List String) : Option String :=
  match l with
  | [] => none
  | x :: xs => some (xs.foldl (fun acc y => if pyStrLt acc y then y else acc) x)

/-- Digit-string to Nat, for version components. -/
def digitsToNat (cs : List Char) : Option Nat :=
  if cs = [] then none
  else if cs.all Char.isDigit then
    some (cs.foldl (fun n c => n * 10 + (c.toNat - 48)) 0)
  else none

/-- Split a character list on the dot character. -/
def splitOnDot (acc : List Char) : List Char → List (List Char)
  | [] => [acc.reverse]
  | '.' :: rest => acc.reverse :: splitOnDot [] rest
  | c :: rest => splitOnDot (c :: acc) rest

/-- VersionInfo.parse, modelled for the dotted digit strings this code
writes as version directory names; none models the parse error. -/
def parseVersion (s : String) : Option SemVer :=
  match splitOnDot [] s.data with
  | [a, b, c] =>
    match digitsToNat a, digitsToNat b, digitsToNat c with
    | some x, some y, some z => some ⟨x, y, z⟩
    | _, _, _ => none
  | _ => none

/-- str(version) for a semver triple. -/
def versionToString (v : SemVer) : String :=
  toString v.major ++ "." ++ toString v.minor ++ "." ++ toString v.patch

/-- One subdirectory of a dimension type directory: its name and, per
version subdirectory, the (version name, stored log_message) pair. -/
structure DimEntry where
  dirName : String
  versions : List (String × String)
  deriving DecidableEq, Repr

/-- One dimension record being registered: the id assigned from the
name by assign_dimension_id, the upgrade flag and log_message taken
from the dimension config. -/
structure DimItem where
  id : String
  upgrade : Bool
  log_message : String
  deriving DecidableEq, Repr

/-- Errors raised while registering one dimension record. -/
inductive DimRegError where
  | noExistingRecord
  | duplicateLogMessage
  | alreadyRegistered
  | unboundLocalVersion
  | parseFailure
  deriving DecidableEq, Repr

/-- The writes performed for one dimension record: mkdir of
data_type_dir / item.id / str(version) and the dump of the dimension
config (carrying log_message) into it.  Dumping into an existing
version directory overwrites its config in place. -/
def writeDim (entries : List DimEntry) (v : SemVer) (item : DimItem) :
    List DimEntry :=
  let vs := versionToString v
  if entries.any (fun e => e.dirName = item.id) then
    entries.map (fun e =>
      if e.dirName = item.id then
        if (e.versions.map Prod.fst).contains vs then
          { e with versions := e.versions.map (fun p =>
              if p.1 = vs then (vs, item.log_message) else p) }
        else
          { e with versions := e.versions ++ [(vs, item.log_message)] }
      else e)
  else
    entries ++ [⟨item.id, [(vs, item.log_message)]⟩]

/-- Processing of one record inside _register_dimension_config's loop.
entries is the listing of data_type_dir (none when the directory does
not exist); prevVersion is the Python local variable version as left
by the previous loop iteration (none on the first iteration) — when
the upgrade branch finds no matching record it assigns nothing, and
the write that follows uses this stale value, or raises
UnboundLocalError when there is none. -/
def processDimItem (entries? : Option (List DimEntry)) (prevVersion : Option SemVer)
    (item : DimItem) : Except DimRegError (SemVer × List DimEntry) :=
  if item.upgrade then
    match entries? with
    | none => .error .noExistingRecord
    | some entries =>
      match entries.find? (fun e => fnameOf e.dirName = item.id) with
      | none =>
        match prevVersion with
        | none => .error .unboundLocalVersion
        | some v => .ok (v, writeDim entries v item)
      | some e =>
        match pyMax (e.versions.map Prod.fst) with
        | none => .error .parseFailure
        | some maxName =>
          match parseVersion maxName with
          | none => .error .parseFailure
          | some current =>
            let version := current.bump_major
            if (e.versions.map Prod.snd).contains item.log_message then
              .error .duplicateLogMessage
            else
              .ok (version, writeDim entries version item)
  else
    let version : SemVer := ⟨1, 0, 0⟩
    match entries? with
    | none => .ok (version, writeDim [] version item)
    | some entries =>
      if entries.any (fun e => fnameOf e.dirName = item.id) then
        .error .alreadyRegistered
      else
        .ok (version, writeDim entries version item)

/-! ## Registry manager: dataset operations -/

/-- Modelled from the spec: ProjectRegistry.has_dataset(dataset_id,
status) comes from project_registry.py, which is not among the
sources; per the spec a project header lists dataset slots with
statuses, and the check asks whether the slot for this dataset id
currently has the given status. -/
def has_dataset (h : ProjectHeader) (did : String) (status : DatasetStatus) : Bool :=
  h.dataset_registries.any (fun s => s.dataset_id = did ∧ s.status = status)

/-- Modelled from the spec: ProjectRegistry.set_dataset_status comes
from project_registry.py, which is not among the sources; per the spec
it flips the slot for the given dataset id to the given status. -/
def set_dataset_status (h : ProjectHeader) (did : String) (status : DatasetStatus) :
    ProjectHeader :=
  { h with
    dataset_registries := h.dataset_registries.map (fun s =>
      if s.dataset_id = did then { s with status := status } else s) }

/-- DatasetRegistryModel: the serialized dataset registry header. -/
structure DatasetHeader where
  dataset_id : String
  version : SemVer
  description : String
  registration_history : List RegistrationRecord
  deriving DecidableEq, Repr

/-- Errors raised by submit_dataset, in source order: the
already-submitted ValueError, the not-defined-in-project ValueError,
the assert that the dataset id is absent from self._dataset_ids, and
whatever check_dataset_dimension_mappings raises. -/
inductive SubmitError where
  | alreadySubmitted
  | notExpected
  | assertionFailed
  | invalidMappings
  deriving DecidableEq, Repr

/-- RegistryManager.submit_dataset.  projectDeclares is the dataset id
list of the loaded project config (project_config.has_dataset);
dataset_ids is self._dataset_ids; mappingsOk is the outcome of
project_config.check_dataset_dimension_mappings, an external validator
here.  On success the dataset registry header is created at version
1.0.0, the project slot is set to REGISTERED and serialized, and the
dataset id is added to self._dataset_ids. -/
def submit_dataset (did : String) (projectRegistry : ProjectHeader)
    (projectDeclares : List String) (dataset_ids : List String)
    (mappingsOk : Bool) (submitter date log_message description : String) :
    Except SubmitError (ProjectHeader × DatasetHeader × List String) :=
  if has_dataset projectRegistry did DatasetStatus.registered then
    .error .alreadySubmitted
  else if ¬ projectDeclares.contains did then
    .error .notExpected
  else if dataset_ids.contains did then
    .error .assertionFailed
  else if ¬ mappingsOk then
    .error .invalidMappings
  else
    let version : SemVer := ⟨1, 0, 0⟩
    let dsHeader : DatasetHeader :=
      ⟨did, version, description, [⟨version, submitter, date, log_message⟩]⟩
    .ok (set_dataset_status projectRegistry did DatasetStatus.registered,
         dsHeader, dataset_ids ++ [did])

/-- The registry manager state touched by remove_dataset and
update_dataset: self._dataset_ids, the dataset directories on disk,
the in-memory cache self._project_registries (keyed by project id),
and the serialized project registry headers on disk. -/
structure ManagerState where
  dataset_ids : List String
  dataset_dirs : List String
  cache : List (String × ProjectHeader)
  persisted : List (String × ProjectHeader)
  deriving DecidableEq, Repr

/-- RegistryManager.remove_dataset.  Removes the dataset directory
tree (all version directories), then iterates over
self._project_registries.values() — the in-memory cache only — and,
for each cached project registry holding this dataset as REGISTERED,
flips the slot to UNREGISTERED and serializes that header to disk. -/
def remove_dataset (did : String) (st : ManagerState) :
    Except RegistryError ManagerState :=
  if ¬ st.dataset_ids.contains did then
    .error (.valueError "dataset is not registered")
  else
    let cache' := st.cache.map (fun kv =>
      if has_dataset kv.2 did DatasetStatus.registered then
        (kv.1, set_dataset_status kv.2 did DatasetStatus.unregistered)
      else kv)
    let persisted' := st.persisted.map (fun kv =>
      match findHeader st.cache kv.1 with
      | some c =>
        if has_dataset c did DatasetStatus.registered then
          (kv.1, set_dataset_status c did DatasetStatus.unregistered)
        else kv
      | none => kv)
    .ok { st with
          dataset_dirs := st.dataset_dirs.filter (fun d => ¬ d = did),
          cache := cache',
          persisted := persisted' }

/-- RegistryManager.update_dataset.  Its body begins with
assert False (with the message: not tested and probably not correct), so every call
raises AssertionError immediately; the statements after the assert are
unreachable and are therefore not part of this embedding. -/
def update_dataset (dataset_id config_file submitter : String)
    (update_type : UpdateType) (log_message : String) (st : ManagerState) :
    Except RegistryError Unit × ManagerState :=
  (.error RegistryError.assertionFailed, st)

/-! ## Claim C1: lock release ownership check -/

/-- Claim C1, counterexample: a caller whose uuid differs from the
lock file's recorded uuid but whose user matches the recorded user is
a different owner, yet remove_lock with force=false removes the lock
file without raising, because the source requires both components to
mismatch before it raises.  The claim demanded a registry-lock error
and an intact lock file here. -/
theorem c1_counterexample :
    remove_lock ⟨"uuid-2", "alice"⟩ (some ⟨"alice", "uuid-1", "t0"⟩) false =
      .ok none ∧
    ("uuid-2" : String) ≠ "uuid-1" := by
  refine ⟨rfl, by decide⟩

/-- Claim C1 (amended): with force=false and an existing lock file,
the release fails with a registry-lock error naming the recorded
owner exactly when BOTH the caller's uuid and user differ from the
recorded pair; a caller matching either component, or a forced
release, removes the lock file. -/
theorem c1_remove_lock_ownership (cl : LockClient) (lc : LockContents) :
    (cl.uuid ≠ lc.uuid → cl.user ≠ lc.username →
      remove_lock cl (some lc) false =
        .error (.registryLock lc.username lc.timestamp lc.uuid)) ∧
    ((cl.uuid = lc.uuid ∨ cl.user = lc.username) →
      remove_lock cl (some lc) false = .ok none) ∧
    remove_lock cl (some lc) true = .ok none := by
  refine ⟨?_, ?_, ?_⟩
  · intro h1 h2
    simp [remove_lock, h1, h2]
  · intro h
    rcases h with h | h <;> simp [remove_lock, h]
  · simp [remove_lock]

/-- Witness for the amended C1 at a concrete input. -/
theorem c1_witness :
    remove_lock ⟨"uuid-2", "bob"⟩ (some ⟨"alice", "uuid-1", "t0"⟩) false =
      .error (.registryLock "alice" "t0" "uuid-1") :=
  (c1_remove_lock_ownership ⟨"uuid-2", "bob"⟩ ⟨"alice", "uuid-1", "t0"⟩).1
    (by decide) (by decide)

/-! ## Claim C2: lock path validation -/

/-- Claim C2, code bug: for a .lock path whose stripped parent is
neither configs/.locks nor data/.locks, check_valid_lockfile builds a
DSGMakeLockError but never raises it and returns True, and make_lock
then writes the lock file at the unsupported path.  The claim (and the
evident intent of the source, which constructs the error) requires the
path to be rejected with a make-lock error and no lock file written. -/
theorem c2_code_bug :
    check_valid_lockfile ⟨".lock", "somewhere/else"⟩ = .ok true ∧
    make_lock_enter ⟨"uuid-1", "alice"⟩ ⟨".lock", "somewhere/else"⟩ "t0" none =
      .ok (some ⟨"alice", "uuid-1", "t0"⟩) := by
  refine ⟨rfl, rfl⟩

/-! ## Claim C3: lock mutual exclusion -/

/-- Claim C3: while A's lock file exists at a valid lock path, an
acquire by B (whose uuid or user differs from A's) fails with a
registry-lock error naming A's username, timestamp and uuid and never
writes B's own lock file (the state left behind is A's file or no
file, reflecting the remove_lock call in the context manager's finally
clause); once A's lock file is gone, B's acquire succeeds and writes
B's lock file. -/
theorem c3_lock_mutual_exclusion (A B : LockClient) (tsA tsB : String)
    (p : LockPath) (hsuf : p.suffix = ".lock")
    (hpar : p.relParent = "configs/.locks")
    (hdiff : B.uuid ≠ A.uuid ∨ B.user ≠ A.user) :
    (∃ st', make_lock_enter B p tsB (some ⟨A.user, A.uuid, tsA⟩) =
        .error (.registryLock A.user tsA A.uuid, st') ∧
        (st' = none ∨ st' = some ⟨A.user, A.uuid, tsA⟩) ∧
        st' ≠ some ⟨B.user, B.uuid, tsB⟩) ∧
    make_lock_enter B p tsB none = .ok (some ⟨B.user, B.uuid, tsB⟩) := by
  have hvalid : check_valid_lockfile p = .ok true := by
    simp [check_valid_lockfile, hsuf, hpar]
  constructor
  · by_cases h1 : B.uuid = A.uuid
    · -- the user must differ; remove_lock in the finally clause unlinks A's file
      have h2 : B.user ≠ A.user := by
        rcases hdiff with h | h
        · exact absurd h1 h
        · exact h
      refine ⟨none, ?_, Or.inl rfl, by simp⟩
      simp [make_lock_enter, check_lock, hvalid, remove_lock, h1, h2]
    · by_cases h2 : B.user = A.user
      · -- the uuid differs but the user matches: remove_lock unlinks A's file
        refine ⟨none, ?_, Or.inl rfl, by simp⟩
        simp [make_lock_enter, check_lock, hvalid, remove_lock, h1, h2]
      · -- both differ: remove_lock itself raises, leaving A's file intact
        refine ⟨some ⟨A.user, A.uuid, tsA⟩, ?_, Or.inr rfl, ?_⟩
        · simp [make_lock_enter, check_lock, hvalid, remove_lock, h1, h2]
        · intro hcontra
          exact h2 (congrArg LockContents.username (Option.some.inj hcontra)).symm
  · simp [make_lock_enter, check_lock, hvalid]

/-- Witness for C3 at a concrete input. -/
theorem c3_witness :
    (∃ st', make_lock_enter ⟨"uuid-2", "bob"⟩ ⟨".lock", "configs/.locks"⟩ "t2"
        (some ⟨"alice", "uuid-1", "t1"⟩) =
        .error (.registryLock "alice" "t1" "uuid-1", st') ∧
        (st' = none ∨ st' = some ⟨"alice", "uuid-1", "t1"⟩) ∧
        st' ≠ some ⟨"bob", "uuid-2", "t2"⟩) ∧
    make_lock_enter ⟨"uuid-2", "bob"⟩ ⟨".lock", "configs/.locks"⟩ "t2" none =
      .ok (some ⟨"bob", "uuid-2", "t2"⟩) :=
  c3_lock_mutual_exclusion ⟨"uuid-1", "alice"⟩ ⟨"uuid-2", "bob"⟩ "t1" "t2"
    ⟨".lock", "configs/.locks"⟩ rfl rfl (Or.inl (by decide))

/-! ## Claim C4: project update cascading postconditions -/

/-- Every slot mapped by the unregistration pass ends up unregistered. -/
theorem unregister_slot_eq (d : DatasetSlot) :
    (if d.status = DatasetStatus.registered then
      { d with status := DatasetStatus.unregistered } else d) =
    { d with status := DatasetStatus.unregistered } := by
  cases d with
  | mk i s => cases s <;> simp

/-- Claim C4: when the changed fields intersect the set of dimensions
and dimension_mappings, handle_postconditions turns every REGISTERED
dataset slot of the new model to UNREGISTERED (leaving zero REGISTERED
slots) and downgrades a COMPLETE project status to IN_PROGRESS while
leaving any other status alone; when the changed fields do not
intersect that set, the model is returned unchanged. -/
theorem c4_handle_postconditions (changed : List String) (m : ProjectModel) :
    (("dimensions" ∈ changed ∨ "dimension_mappings" ∈ changed) →
      (handle_postconditions changed m).datasets =
        m.datasets.map (fun d => { d with status := DatasetStatus.unregistered }) ∧
      (∀ d ∈ (handle_postconditions changed m).datasets,
        d.status ≠ DatasetStatus.registered) ∧
      (m.status = ProjectStatus.complete →
        (handle_postconditions changed m).status = ProjectStatus.inProgress) ∧
      (m.status ≠ ProjectStatus.complete →
        (handle_postconditions changed m).status = m.status)) ∧
    (("dimensions" ∉ changed ∧ "dimension_mappings" ∉ changed) →
      handle_postconditions changed m = m) := by
  constructor
  · intro hmem
    have hcond :
        (REQUIRES_DATASET_UNREGISTRATION.filter (fun f => f ∈ changed)) ≠ [] := by
      intro hempty
      rcases hmem with h | h
      · have : ("dimensions" : String) ∈
            REQUIRES_DATASET_UNREGISTRATION.filter (fun f => f ∈ changed) := by
          simp [REQUIRES_DATASET_UNREGISTRATION, List.mem_filter, h]
        rw [hempty] at this
        exact absurd this (List.not_mem_nil _)
      · have : ("dimension_mappings" : String) ∈
            REQUIRES_DATASET_UNREGISTRATION.filter (fun f => f ∈ changed) := by
          simp [REQUIRES_DATASET_UNREGISTRATION, List.mem_filter, h]
        rw [hempty] at this
        exact absurd this (List.not_mem_nil _)
    have hmapped :
        m.datasets.map (fun d =>
          if d.status = DatasetStatus.registered then
            { d with status := DatasetStatus.unregistered } else d) =
        m.datasets.map (fun d => { d with status := DatasetStatus.unregistered }) := by
      exact List.map_congr_left (fun d _ => unregister_slot_eq d)
    have hds : (handle_postconditions changed m).datasets =
        m.datasets.map (fun d => { d with status := DatasetStatus.unregistered }) := by
      by_cases hst : m.status = ProjectStatus.complete <;>
        simp [handle_postconditions, hcond, hst, hmapped]
    refine ⟨hds, ?_, ?_, ?_⟩
    · intro d hd
      rw [hds] at hd
      simp only [List.mem_map] at hd
      obtain ⟨d0, _, rfl⟩ := hd
      simp
    · intro hst
      simp [handle_postconditions, hcond, hst]
    · intro hst
      simp [handle_postconditions, hcond, hst]
  · intro ⟨h1, h2⟩
    have hcond :
        (REQUIRES_DATASET_UNREGISTRATION.filter (fun f => f ∈ changed)) = [] := by
      simp [REQUIRES_DATASET_UNREGISTRATION, List.filter, h1, h2]
    simp [handle_postconditions, hcond]

/-- Witness for C4 at a concrete input. -/
theorem c4_witness :
    (handle_postconditions ["dimensions"]
      ⟨"p1", ProjectStatus.complete, [⟨"d1", DatasetStatus.registered⟩]⟩).status =
        ProjectStatus.inProgress ∧
    (handle_postconditions ["dimensions"]
      ⟨"p1", ProjectStatus.complete, [⟨"d1", DatasetStatus.registered⟩]⟩).datasets =
        [⟨"d1", DatasetStatus.unregistered⟩] ∧
    handle_postconditions ["description"]
      ⟨"p1", ProjectStatus.complete, [⟨"d1", DatasetStatus.registered⟩]⟩ =
      ⟨"p1", ProjectStatus.complete, [⟨"d1", DatasetStatus.registered⟩]⟩ := by
  have h := c4_handle_postconditions ["dimensions"]
    ⟨"p1", ProjectStatus.complete, [⟨"d1", DatasetStatus.registered⟩]⟩
  have h2 := c4_handle_postconditions ["description"]
    ⟨"p1", ProjectStatus.complete, [⟨"d1", DatasetStatus.registered⟩]⟩
  exact ⟨(h.1 (Or.inl (by simp))).2.2.1 rfl,
         by rw [(h.1 (Or.inl (by simp))).1]; simp,
         h2.2 (by simp)⟩

/-! ## Claim C5: update_project -/

/-- Claim C5, counterexample: update_project never invokes the update
checker, so a project whose header holds one REGISTERED dataset slot
still holds that REGISTERED slot after an update — under the claim the
count afterwards should have been zero for an update whose diff
includes dimensions (the update below bumps the version and rewrites
the description, the only config content the source reads). -/
theorem c5_counterexample :
    update_project
      [("p1", ⟨"p1", ⟨1, 0, 0⟩, ProjectStatus.complete, "old",
        [⟨"d1", DatasetStatus.registered⟩], []⟩)]
      "p1" "new" UpdateType.major "sub" "2021-06-01" "add dimensions" =
      .ok [("p1", ⟨"p1", ⟨2, 0, 0⟩, ProjectStatus.complete, "new",
        [⟨"d1", DatasetStatus.registered⟩],
        [⟨⟨2, 0, 0⟩, "sub", "2021-06-01", "add dimensions"⟩]⟩)] ∧
    (([⟨"d1", DatasetStatus.registered⟩] : List DatasetSlot).filter
      (fun s => s.status = DatasetStatus.registered)).length = 1 := by
  refine ⟨rfl, by decide⟩

/-- Claim C5 (amended): update_project on a registered project loads
the current header, bumps the stored version according to the
requested update type, copies the new description, and appends exactly
one RegistrationRecord carrying the bumped version, submitter and log
message; it does not run the Update Checker, so the dataset slots and
the project status are left exactly as they were. -/
theorem c5_update_project (projects : List (String × ProjectHeader))
    (pid : String) (h : ProjectHeader) (desc : String) (t : UpdateType)
    (sub date msg : String) (hfind : findHeader projects pid = some h) :
    update_project projects pid desc t sub date msg =
      .ok (storeHeader projects pid (update_config h desc t sub date msg)) ∧
    (update_config h desc t sub date msg).version =
      (match t with
       | .major => h.version.bump_major
       | .minor => h.version.bump_minor
       | .patch => h.version.bump_patch) ∧
    (update_config h desc t sub date msg).registration_history =
      h.registration_history ++
        [⟨(update_config h desc t sub date msg).version, sub, date, msg⟩] ∧
    (update_config h desc t sub date msg).dataset_registries =
      h.dataset_registries ∧
    (update_config h desc t sub date msg).status = h.status ∧
    (update_config h desc t sub date msg).description = desc := by
  refine ⟨?_, ?_, ?_, ?_, ?_, ?_⟩
  · simp [update_project, hfind]
  · cases t <;> rfl
  · rfl
  · rfl
  · rfl
  · rfl

/-- Witness for the amended C5 at a concrete input. -/
theorem c5_witness :
    update_project
      [("p1", ⟨"p1", ⟨1, 2, 3⟩, ProjectStatus.inProgress, "old", [], []⟩)]
      "p1" "new" UpdateType.minor "sub" "2021-06-02" "edit" =
      .ok (storeHeader
        [("p1", ⟨"p1", ⟨1, 2, 3⟩, ProjectStatus.inProgress, "old", [], []⟩)]
        "p1"
        (update_config ⟨"p1", ⟨1, 2, 3⟩, ProjectStatus.inProgress, "old", [], []⟩
          "new" UpdateType.minor "sub" "2021-06-02" "edit")) :=
  (c5_update_project
    [("p1", ⟨"p1", ⟨1, 2, 3⟩, ProjectStatus.inProgress, "old", [], []⟩)]
    "p1" ⟨"p1", ⟨1, 2, 3⟩, ProjectStatus.inProgress, "old", [], []⟩
    "new" UpdateType.minor "sub" "2021-06-02" "edit" rfl).1

/-! ## Claim C6: duplicate dimension registration -/

/-- Claim C6: registering the identical dimension record twice without
upgrade never creates a second registry entry for the name: the first
registration creates the single entry at version 1.0.0, and the second
registration either fails with the already-exists ValueError (when the
directory-name prefix matches the id, the usual case) or rewrites the
same version directory in place (when the id contains a double
underscore, so the prefix match misses), leaving the identical state;
either way exactly one entry for that name remains, holding exactly
the 1.0.0 version. -/
theorem c6_duplicate_dimension (id msg : String) :
    processDimItem none none ⟨id, false, msg⟩ =
      .ok (⟨1, 0, 0⟩, [⟨id, [("1.0.0", msg)]⟩]) ∧
    (processDimItem (some [⟨id, [("1.0.0", msg)]⟩]) none ⟨id, false, msg⟩ =
        .error .alreadyRegistered ∨
     processDimItem (some [⟨id, [("1.0.0", msg)]⟩]) none ⟨id, false, msg⟩ =
        .ok (⟨1, 0, 0⟩, [⟨id, [("1.0.0", msg)]⟩])) ∧
    (([⟨id, [("1.0.0", msg)]⟩] : List DimEntry).filter
      (fun e => e.dirName = id)).length = 1 := by
  have hv : versionToString ⟨1, 0, 0⟩ = "1.0.0" := rfl
  refine ⟨?_, ?_, ?_⟩
  · simp [processDimItem, writeDim, hv]
  · by_cases hid : fnameOf id = id
    · left
      simp [processDimItem, hid]
    · right
      simp [processDimItem, writeDim, hid, hv]
  · simp

/-! ## Claim C7: dimension upgrade versioning -/

/-- Claim C7, counterexample: for an existing record holding version
directories 2.0.0 and 10.0.0, the highest existing version is 10.0.0
and its major-bump is 11.0.0, but the source takes the builtin max of
the version strings — a lexicographic string comparison under which
2.0.0 beats 10.0.0 — and assigns 3.0.0. -/
theorem c7_counterexample :
    processDimItem
      (some [⟨"county-2020",
        [("2.0.0", "first upgrade"), ("10.0.0", "ninth upgrade")]⟩])
      none ⟨"county-2020", true, "tenth upgrade"⟩ =
      .ok (⟨3, 0, 0⟩,
        [⟨"county-2020",
          [("2.0.0", "first upgrade"), ("10.0.0", "ninth upgrade"),
           ("3.0.0", "tenth upgrade")]⟩]) ∧
    SemVer.bump_major ⟨10, 0, 0⟩ = ⟨11, 0, 0⟩ ∧
    (⟨3, 0, 0⟩ : SemVer) ≠ ⟨11, 0, 0⟩ := by
  refine ⟨rfl, rfl, by decide⟩

/-- Claim C7 (amended): for a dimension record submitted alone with
upgrade requested: if the dimension type directory does not exist the
registration fails; if it exists and holds a record matching the id,
the assigned version is the major-bump (minor and patch reset to zero)
of the version obtained by parsing the lexicographically greatest
version-directory name of that record, and when the new log_message
equals any prior log_message of that record the registration fails
with the duplicate-log-message error before anything is written. -/
theorem c7_upgrade_versioning (entries : List DimEntry) (item : DimItem)
    (e : DimEntry) (maxName : String) (cur : SemVer)
    (hup : item.upgrade = true)
    (hfind : entries.find? (fun x => fnameOf x.dirName = item.id) = some e)
    (hmax : pyMax (e.versions.map Prod.fst) = some maxName)
    (hparse : parseVersion maxName = some cur) :
    processDimItem none none item = .error .noExistingRecord ∧
    (item.log_message ∉ e.versions.map Prod.snd →
      processDimItem (some entries) none item =
        .ok (cur.bump_major, writeDim entries cur.bump_major item)) ∧
    (item.log_message ∈ e.versions.map Prod.snd →
      processDimItem (some entries) none item = .error .duplicateLogMessage) ∧
    (cur.bump_major).minor = 0 ∧ (cur.bump_major).patch = 0 ∧
    (cur.bump_major).major = cur.major + 1 := by
  refine ⟨?_, ?_, ?_, rfl, rfl, rfl⟩
  · simp [processDimItem, hup]
  · intro hdup
    simp [processDimItem, hup, hfind, hmax, hparse, hdup]
  · intro hdup
    simp [processDimItem, hup, hfind, hmax, hparse, hdup]

/-- Witness for the amended C7, matching the spec scenario of a first
upgrade producing version 2.0.0. -/
theorem c7_witness :
    processDimItem (some [⟨"county-2020", [("1.0.0", "initial")]⟩]) none
      ⟨"county-2020", true, "second edition"⟩ =
      .ok (SemVer.bump_major ⟨1, 0, 0⟩,
        writeDim [⟨"county-2020", [("1.0.0", "initial")]⟩]
          (SemVer.bump_major ⟨1, 0, 0⟩)
          ⟨"county-2020", true, "second edition"⟩) :=
  (c7_upgrade_versioning [⟨"county-2020", [("1.0.0", "initial")]⟩]
    ⟨"county-2020", true, "second edition"⟩
    ⟨"county-2020", [("1.0.0", "initial")]⟩ "1.0.0" ⟨1, 0, 0⟩
    rfl rfl rfl rfl).2.1 (by decide)

/-! ## Claim C8: submit_dataset -/

/-- Claim C8, counterexample: a dataset that is declared by the
project, not yet REGISTERED on it, but already present in the
registry's dataset id set makes submit_dataset fail the assert instead
of skipping the version-1.0.0 registration and flipping the slot to
REGISTERED as the claim requires. -/
theorem c8_counterexample :
    submit_dataset "d1"
      ⟨"p1", ⟨1, 0, 0⟩, ProjectStatus.inProgress, "",
        [⟨"d1", DatasetStatus.unregistered⟩], []⟩
      ["d1"] ["d1"] true "sub" "2021-06-03" "msg" "desc" =
      .error .assertionFailed := by
  rfl

/-- Claim C8 (amended): submit_dataset fails with the already-submitted
error when the project registry holds the dataset as REGISTERED, fails
with the not-expected error when the project config does not declare
the dataset id, fails the assert when the dataset id is already in the
registry's dataset id set, and otherwise (with the dimension-mapping
validation passing) registers the dataset at version 1.0.0 with a
single registration record, flips the project's slot for the dataset
to REGISTERED, and adds the dataset id to the registry's id set. -/
theorem c8_submit_dataset (did : String) (pr : ProjectHeader)
    (declares daids : List String) (sub date msg desc : String) :
    (has_dataset pr did DatasetStatus.registered = true →
      submit_dataset did pr declares daids true sub date msg desc =
        .error .alreadySubmitted) ∧
    (has_dataset pr did DatasetStatus.registered = false →
      did ∉ declares →
      submit_dataset did pr declares daids true sub date msg desc =
        .error .notExpected) ∧
    (has_dataset pr did DatasetStatus.registered = false →
      did ∈ declares → did ∈ daids →
      submit_dataset did pr declares daids true sub date msg desc =
        .error .assertionFailed) ∧
    (has_dataset pr did DatasetStatus.registered = false →
      did ∈ declares → did ∉ daids →
      submit_dataset did pr declares daids true sub date msg desc =
        .ok (set_dataset_status pr did DatasetStatus.registered,
             ⟨did, ⟨1, 0, 0⟩, desc, [⟨⟨1, 0, 0⟩, sub, date, msg⟩]⟩,
             daids ++ [did])) := by
  refine ⟨?_, ?_, ?_, ?_⟩
  · intro h1
    simp [submit_dataset, h1]
  · intro h1 h2
    simp [submit_dataset, h1, h2]
  · intro h1 h2 h3
    simp [submit_dataset, h1, h2, h3]
  · intro h1 h2 h3
    simp [submit_dataset, h1, h2, h3]

/-- Witness for the amended C8 at a concrete input. -/
theorem c8_witness :
    submit_dataset "d2"
      ⟨"p1", ⟨1, 0, 0⟩, ProjectStatus.inProgress, "",
        [⟨"d2", DatasetStatus.unregistered⟩], []⟩
      ["d2"] [] true "sub" "2021-06-04" "msg" "desc" =
      .ok (set_dataset_status
             ⟨"p1", ⟨1, 0, 0⟩, ProjectStatus.inProgress, "",
               [⟨"d2", DatasetStatus.unregistered⟩], []⟩
             "d2" DatasetStatus.registered,
           ⟨"d2", ⟨1, 0, 0⟩, "desc", [⟨⟨1, 0, 0⟩, "sub", "2021-06-04", "msg"⟩]⟩,
           ["d2"]) :=
  (c8_submit_dataset "d2"
    ⟨"p1", ⟨1, 0, 0⟩, ProjectStatus.inProgress, "",
      [⟨"d2", DatasetStatus.unregistered⟩], []⟩
    ["d2"] [] "sub" "2021-06-04" "msg" "desc").2.2.2
    (by decide) (by decide) (by decide)

/-! ## Claim C9: remove_dataset -/

/-- Flipping the slot to UNREGISTERED leaves no REGISTERED slot for
that dataset id in the header. -/
theorem has_dataset_after_unset (h : ProjectHeader) (did : String) :
    has_dataset (set_dataset_status h did DatasetStatus.unregistered) did
      DatasetStatus.registered = false := by
  simp only [has_dataset, set_dataset_status]
  rw [List.any_eq_false]
  intro s hs
  simp only [List.mem_map] at hs
  obtain ⟨s0, _, rfl⟩ := hs
  by_cases hid : s0.dataset_id = did <;> simp [hid]

/-- Claim C9, counterexample: a registered dataset referenced as
REGISTERED by a project whose registry header was never loaded into
the manager's in-memory cache: remove_dataset deletes the dataset
directory but leaves the persisted project header untouched, its slot
still REGISTERED, because the source iterates only over
self._project_registries.values(). -/
theorem c9_counterexample :
    remove_dataset "d1"
      ⟨["d1"], ["d1"], [],
        [("p1", ⟨"p1", ⟨1, 0, 0⟩, ProjectStatus.inProgress, "",
          [⟨"d1", DatasetStatus.registered⟩], []⟩)]⟩ =
      .ok ⟨["d1"], [], [],
        [("p1", ⟨"p1", ⟨1, 0, 0⟩, ProjectStatus.inProgress, "",
          [⟨"d1", DatasetStatus.registered⟩], []⟩)]⟩ ∧
    has_dataset
      ⟨"p1", ⟨1, 0, 0⟩, ProjectStatus.inProgress, "",
        [⟨"d1", DatasetStatus.registered⟩], []⟩
      "d1" DatasetStatus.registered = true := by
  refine ⟨rfl, rfl⟩

/-- Claim C9 (amended): removing a registered dataset id deletes its
whole directory (all version directories) and, for every project
registry currently loaded in the manager's in-memory cache, flips a
REGISTERED slot for that dataset back to UNREGISTERED and re-serializes
that header; persisted headers of projects absent from the cache are
left unchanged. -/
theorem c9_remove_dataset (did : String) (st : ManagerState)
    (hmem : did ∈ st.dataset_ids) :
    ∃ st', remove_dataset did st = .ok st' ∧
      did ∉ st'.dataset_dirs ∧
      (∀ kv ∈ st'.cache,
        has_dataset kv.2 did DatasetStatus.registered = false) ∧
      (∀ kv ∈ st.persisted, ∀ c, findHeader st.cache kv.1 = some c →
        has_dataset c did DatasetStatus.registered = true →
        (kv.1, set_dataset_status c did DatasetStatus.unregistered) ∈
          st'.persisted) ∧
      (∀ kv ∈ st.persisted, findHeader st.cache kv.1 = none →
        kv ∈ st'.persisted) := by
  refine ⟨{ st with
      dataset_dirs := st.dataset_dirs.filter (fun d => ¬ d = did),
      cache := st.cache.map (fun kv =>
        if has_dataset kv.2 did DatasetStatus.registered then
          (kv.1, set_dataset_status kv.2 did DatasetStatus.unregistered)
        else kv),
      persisted := st.persisted.map (fun kv =>
        match findHeader st.cache kv.1 with
        | some c =>
          if has_dataset c did DatasetStatus.registered then
            (kv.1, set_dataset_status c did DatasetStatus.unregistered)
          else kv
        | none => kv) }, ?_, ?_, ?_, ?_, ?_⟩
  · simp [remove_dataset, hmem]
  · intro hd
    simp [List.mem_filter] at hd
  · intro kv hkv
    simp only [List.mem_map] at hkv
    obtain ⟨kv0, hkv0, rfl⟩ := hkv
    by_cases hreg : has_dataset kv0.2 did DatasetStatus.registered = true
    · simp only [hreg, if_true]
      exact has_dataset_after_unset kv0.2 did
    · simp only [hreg, if_false]
      simpa using hreg
  · intro kv hkv c hc hreg
    refine List.mem_map.mpr ⟨kv, hkv, ?_⟩
    simp [hc, hreg]
  · intro kv hkv hc
    refine List.mem_map.mpr ⟨kv, hkv, ?_⟩
    simp [hc]

/-- Witness for the amended C9 at a concrete input. -/
theorem c9_witness :
    ∃ st', remove_dataset "d1"
        ⟨["d1"], ["d1"],
          [("p1", ⟨"p1", ⟨1, 0, 0⟩, ProjectStatus.inProgress, "",
            [⟨"d1", DatasetStatus.registered⟩], []⟩)],
          [("p1", ⟨"p1", ⟨1, 0, 0⟩, ProjectStatus.inProgress, "",
            [⟨"d1", DatasetStatus.registered⟩], []⟩)]⟩ = .ok st' ∧
      "d1" ∉ st'.dataset_dirs ∧
      (∀ kv ∈ st'.cache,
        has_dataset kv.2 "d1" DatasetStatus.registered = false) ∧
      (∀ kv ∈ [("p1", (⟨"p1", ⟨1, 0, 0⟩, ProjectStatus.inProgress, "",
          [⟨"d1", DatasetStatus.registered⟩], []⟩ : ProjectHeader))],
        ∀ c, findHeader
          [("p1", ⟨"p1", ⟨1, 0, 0⟩, ProjectStatus.inProgress, "",
            [⟨"d1", DatasetStatus.registered⟩], []⟩)] kv.1 = some c →
        has_dataset c "d1" DatasetStatus.registered = true →
        (kv.1, set_dataset_status c "d1" DatasetStatus.unregistered) ∈
          st'.persisted) ∧
      (∀ kv ∈ [("p1", (⟨"p1", ⟨1, 0, 0⟩, ProjectStatus.inProgress, "",
          [⟨"d1", DatasetStatus.registered⟩], []⟩ : ProjectHeader))],
        findHeader
          [("p1", ⟨"p1", ⟨1, 0, 0⟩, ProjectStatus.inProgress, "",
            [⟨"d1", DatasetStatus.registered⟩], []⟩)] kv.1 = none →
        kv ∈ st'.persisted) :=
  c9_remove_dataset "d1"
    ⟨["d1"], ["d1"],
      [("p1", ⟨"p1", ⟨1, 0, 0⟩, ProjectStatus.inProgress, "",
        [⟨"d1", DatasetStatus.registered⟩], []⟩)],
      [("p1", ⟨"p1", ⟨1, 0, 0⟩, ProjectStatus.inProgress, "",
        [⟨"d1", DatasetStatus.registered⟩], []⟩)]⟩ (by decide)

/-! ## Claim C10: update_dataset -/

/-- Claim C10: every call to update_dataset raises AssertionError
immediately (the source body begins with assert False) and leaves the
registry manager state unchanged, so no dataset can ever be updated
through the registry manager. -/
theorem c10_update_dataset (dataset_id config_file submitter : String)
    (update_type : UpdateType) (log_message : String) (st : ManagerState) :
    update_dataset dataset_id config_file submitter update_type log_message st =
      (.error RegistryError.assertionFailed, st) := rfl

end Dsgrid
